import Mathlib

/-!
Verification development for the janus-js signaling client
(src/dist/janus.js). The JavaScript source is shallowly embedded:
each embedded definition carries a reference to the lines of
src/dist/janus.js it translates. Callback-passing JavaScript code is
modelled as explicit state-transforming functions that also return the
list of observable events (Backbone `trigger` calls, user success/error
callbacks, outgoing requests) emitted during the call.
-/

namespace JanusJS

/-- A JavaScript value as far as the media-flag checks are concerned:
the predicates in janus.js distinguish `undefined`, `null`, the two
booleans, and everything else (via `===` comparisons only). -/
inductive JVal where
  | undef
  | null
  | jbool (b : Bool)
  | other
deriving DecidableEq, Repr

/-- The fields of a `media` record that the janus.js enable-predicates
read (lines 701-755). A field that is not set on the JS object reads as
`JVal.undef`. -/
structure Media where
  audio : JVal := JVal.undef
  video : JVal := JVal.undef
  audioSend : JVal := JVal.undef
  audioRecv : JVal := JVal.undef
  videoSend : JVal := JVal.undef
  videoRecv : JVal := JVal.undef
  data : JVal := JVal.undef
deriving DecidableEq, Repr

/-- Janus.Plugin.isAudioSendEnabled (src lines 701-711). The `media`
argument is `none` when the JS value is `undefined` or `null` (the
source treats the two identically: `media === undefined || media === null`). -/
def isAudioSendEnabled (media : Option Media) : Bool :=
  match media with
  | none => true
  | some m =>
    if m.audio = JVal.jbool false then false
    else if m.audioSend = JVal.undef ∨ m.audioSend = JVal.null then true
    else decide (m.audioSend = JVal.jbool true)

/-- Janus.Plugin.isAudioRecvEnabled (src lines 713-723). -/
def isAudioRecvEnabled (media : Option Media) : Bool :=
  match media with
  | none => true
  | some m =>
    if m.audio = JVal.jbool false then false
    else if m.audioRecv = JVal.undef ∨ m.audioRecv = JVal.null then true
    else decide (m.audioRecv = JVal.jbool true)

/-- Janus.Plugin.isVideoSendEnabled (src lines 725-735). -/
def isVideoSendEnabled (media : Option Media) : Bool :=
  match media with
  | none => true
  | some m =>
    if m.video = JVal.jbool false then false
    else if m.videoSend = JVal.undef ∨ m.videoSend = JVal.null then true
    else decide (m.videoSend = JVal.jbool true)

/-- Janus.Plugin.isVideoRecvEnabled (src lines 737-747). -/
def isVideoRecvEnabled (media : Option Media) : Bool :=
  match media with
  | none => true
  | some m =>
    if m.video = JVal.jbool false then false
    else if m.videoRecv = JVal.undef ∨ m.videoRecv = JVal.null then true
    else decide (m.videoRecv = JVal.jbool true)

/-- Janus.Plugin.isDataEnabled (src lines 749-755): unlike the four
direction predicates there is no parent-flag check and no
absence-defaults-to-true step for the `data` flag. -/
def isDataEnabled (media : Option Media) : Bool :=
  match media with
  | none => true
  | some m => decide (m.data = JVal.jbool true)

/-- The `media` record of Janus.Plugin.defaults (src lines 312-318):
all five flags are set to the boolean `false`; `audio`/`video` parent
flags are not present. -/
def defaultMedia : Media :=
  { audioRecv := JVal.jbool false
    audioSend := JVal.jbool false
    videoRecv := JVal.jbool false
    videoSend := JVal.jbool false
    data := JVal.jbool false }

/-- A session description: `{type, sdp}` as stored by
createOffer/createAnswer (src lines 620-623, 648-651). -/
structure Sdp where
  type : String
  sdp : String
deriving DecidableEq, Repr

/-- An ICE candidate record as built by pc.onicecandidate
(src lines 505-509). -/
structure ICand where
  candidate : String
  sdpMid : String
  sdpMLineIndex : Nat
deriving DecidableEq, Repr

/-- The `candidate` field of a trickle request: either a candidate
record or the `completed: true` marker (src lines 517, 589). -/
inductive TrickleCandidate where
  | cand (c : ICand)
  | completed
deriving DecidableEq, Repr

/-- The trickle request built by Janus.Plugin.sendIceCandidate
(src lines 585-600). -/
structure TrickleReq where
  janus : String
  candidate : TrickleCandidate
deriving DecidableEq, Repr

/-- Janus.Plugin.sendIceCandidate request construction (src lines
587-590): `candidate !== null ? candidate : (completed: true)`.
`none` models the JS `null` argument. -/
def sendIceCandidate (candidate : Option TrickleCandidate) : TrickleReq :=
  { janus := "trickle"
    candidate :=
      match candidate with
      | some c => c
      | none => TrickleCandidate.completed }

/-- Janus.Plugin attribute state, from Janus.Plugin.defaults
(src lines 303-319). External objects (peer connection, data channel,
local stream) are modelled by presence flags; all negotiation-relevant
attributes are carried verbatim. -/
structure PluginState where
  id : Option String := none
  sdp : Option Sdp := none
  sdpSent : Bool := false
  hasPc : Bool := false
  hasDataChannel : Bool := false
  iceTrickle : Bool := true
  iceDone : Bool := false
  hasLocalStream : Bool := false
  media : Option Media := some defaultMedia
deriving DecidableEq, Repr

/-- Janus.Plugin.hangupPeerConnection state reset (src lines 526-542):
stops the local stream and closes the peer connection externally, then
clears sdp, sdpSent, pc, dataChannel, iceDone and localStream. -/
def hangupPeerConnection (p : PluginState) : PluginState :=
  { p with
    sdp := none
    sdpSent := false
    hasPc := false
    hasDataChannel := false
    iceDone := false
    hasLocalStream := false }

/-- A registered transaction callback. `noop` is underscore's `_.noop`;
`user n` is an arbitrary application-supplied callback; `wrappedDisconnect`
is the success callback that Janus.Session.disconnect registers when
closing the transport (src lines 899-902). The session-level dispatch
model records which callback was invoked rather than running user code. -/
inductive Cb where
  | noop
  | user (n : Nat)
  | wrappedDisconnect
deriving DecidableEq, Repr

/-- The transaction registry `session.transactions`: a JS object mapping
transaction tokens to callbacks. -/
abbrev Registry := List (String × Cb)

/-- JS `delete transactions[t]` (keys of a JS object are unique, so
removing every pair with key `t` coincides with deleting the key). -/
def removeKey (t : String) (reg : Registry) : Registry :=
  reg.filter fun p => p.1 != t

/-- JS `transactions[t] = f` (overwrite semantics of JS object keys). -/
def insertKey (t : String) (f : Cb) (reg : Registry) : Registry :=
  (t, f) :: removeKey t reg

/-- The `callback` helper of Janus.Session.handleEvent (src lines
967-974): if the token is registered, remove the entry and return its
callback; otherwise return `_.noop`. A `none` token models a frame with
no `transaction` field (`undefined in transactions` is false). -/
def callback (reg : Registry) (t : Option String) : Cb × Registry :=
  match t with
  | none => (Cb.noop, reg)
  | some tok =>
    match reg.lookup tok with
    | some f => (f, removeKey tok reg)
    | none => (Cb.noop, reg)

/-- Observable events: Backbone `trigger` calls, user callbacks being
invoked, requests handed to the transport, and transaction-callback
invocations (recorded with the token they resolved). -/
inductive Ev where
  | invokeCb (t : Option String) (f : Cb)
  | pluginHandleEvent (sender : String)
  | pluginDetach (pid : String)
  | sessionDetach (pid : String)
  | janusDisconnect (prior : Option String)
  | janusError (category : String)
  | userSuccess
  | userError
  | setLocalDesc
  | webrtcOffer
  | webrtcAnswer
  | webrtcIceCandidate
  | webrtcIceComplete
  | trickleSend (r : TrickleReq)
deriving DecidableEq, Repr

/-- The success continuation of Janus.Plugin.createOffer (src lines
615-631), run when the external peer connection produces `offer`: only
when no local description exists yet is the offer adopted (and handed to
setLocalDescription); a webrtc:offer notification and the user success
callback fire in every case. -/
def createOffer (p : PluginState) (offer : Sdp) : PluginState × List Ev :=
  if p.sdp = none then
    ({ p with sdp := some { type := "offer", sdp := offer.sdp } },
      [Ev.setLocalDesc, Ev.webrtcOffer, Ev.userSuccess])
  else
    (p, [Ev.webrtcOffer, Ev.userSuccess])

/-- The success continuation of Janus.Plugin.createAnswer (src lines
643-659), analogous to `createOffer`. -/
def createAnswer (p : PluginState) (answer : Sdp) : PluginState × List Ev :=
  if p.sdp = none then
    ({ p with sdp := some { type := "answer", sdp := answer.sdp } },
      [Ev.setLocalDesc, Ev.webrtcAnswer, Ev.userSuccess])
  else
    (p, [Ev.webrtcAnswer, Ev.userSuccess])

/-- The outgoing message request of Janus.Plugin.sendMessage. -/
structure MessageReq where
  janus : String
  body : String
  jsep : Option Sdp
deriving DecidableEq, Repr

/-- Janus.Plugin.sendMessage request construction (src lines 553-583):
an explicitly supplied `options.jsep` wins; otherwise the stored local
description is attached exactly when it exists and has not been sent. -/
def sendMessage (p : PluginState) (body : String) (optJsep : Option Sdp) : MessageReq :=
  { janus := "message"
    body := body
    jsep :=
      match optJsep with
      | some j => some j
      | none =>
        match p.sdp with
        | some d => if p.sdpSent = false then some d else none
        | none => none }

/-- A gathering event delivered to pc.onicecandidate: either a
discovered candidate (`event.candidate` non-null) or gathering
completion (`event.candidate` null). -/
inductive IceGatherEvent where
  | candidate (c : ICand)
  | complete
deriving DecidableEq, Repr

/-- The pc.onicecandidate handler of Janus.Plugin.createPeerConnection
(src lines 501-521). A discovered candidate is sent as a single trickle
request and surfaced as webrtc:icecandidate, with no check of the
iceTrickle flag on this path; on completion iceDone is set and either a
final `completed: true` trickle request is sent (iceTrickle true) or a
local webrtc:icecomplete notification fires (iceTrickle false). -/
def onicecandidate (p : PluginState) (e : IceGatherEvent) : PluginState × List Ev :=
  match e with
  | IceGatherEvent.candidate c =>
    (p, [Ev.trickleSend (sendIceCandidate (some (TrickleCandidate.cand c))),
         Ev.webrtcIceCandidate])
  | IceGatherEvent.complete =>
    let p2 := { p with iceDone := true }
    if p.iceTrickle then
      (p2, [Ev.trickleSend (sendIceCandidate (some TrickleCandidate.completed))])
    else
      (p2, [Ev.webrtcIceComplete])

/-- Janus.Session attribute state (src lines 822-839): the assigned id
(`none` until connect succeeds), whether a connection object exists
(`session.cxn !== null`, the test of isConnected, src lines 886-888),
the transaction registry and the plugin map keyed by handle id. -/
structure SessionState where
  id : Option String := none
  cxn : Bool := false
  transactions : Registry := []
  plugins : List (String × PluginState) := []
deriving DecidableEq, Repr

/-- An inbound frame as Janus.Session.handleEvent reads it
(src lines 950-1040): the `janus` kind, the optional transaction token,
the optional sender (handle id), and presence/payload of `plugindata`
and `jsep`. Payloads are opaque to the dispatch logic. -/
structure Frame where
  janus : String
  transaction : Option String := none
  sender : Option String := none
  plugindata : Option String := none
  jsep : Option Sdp := none
deriving DecidableEq, Repr

/-- The request built (and then dropped) by Janus.Plugin.detach. -/
structure DetachReq where
  janus : String
deriving DecidableEq, Repr

/-- Janus.Plugin.detach (src lines 362-390). The function builds a
detach request and wraps the caller's success and error callbacks, but
it never passes the request to `session.cxn.send` and never invokes
`detached()` itself, so the wrapped callbacks can never run: the call
returns with no observable effect on the session state and emits no
notification. The dead `request` local is kept to mirror the source. -/
def Plugin.detach (s : SessionState) : SessionState × List Ev :=
  let _request : DetachReq := { janus := "detach" }
  (s, [])

/-- Shared body of the `success`/`error`/`event` cases of
Janus.Session.handleEvent: resolve the frame's transaction through the
`callback` helper and invoke the returned function (recorded as an
`Ev.invokeCb` event), after any case-specific events in `extra`. -/
def resolveWith (s : SessionState) (j : Frame) (extra : List Ev) : SessionState × List Ev :=
  let fr := callback s.transactions j.transaction
  ({ s with transactions := fr.2 }, extra ++ [Ev.invokeCb j.transaction fr.1])

/-- Janus.Session.handleEvent on a single (non-array) frame
(src lines 950-1040). The `hangup`/`detached` cases look the sender up
in the plugin map and, when found, call Janus.Plugin.detach; the `event`
case requires a sender, a plugindata payload and a registered plugin
before forwarding to the plugin and resolving the transaction;
`keepalive`/`ack`/`webrtcup` and unknown kinds do nothing. The plugin's
own handleEvent (remote-description application) is modelled at the
plugin level and recorded here as an `Ev.pluginHandleEvent` event. -/
def handleEvent (s : SessionState) (j : Frame) : SessionState × List Ev :=
  if j.janus = "success" then
    resolveWith s j []
  else if j.janus = "error" then
    resolveWith s j []
  else if j.janus = "keepalive" then
    (s, [])
  else if j.janus = "ack" then
    (s, [])
  else if j.janus = "webrtcup" then
    (s, [])
  else if j.janus = "hangup" then
    match j.sender with
    | none => (s, [])
    | some snd =>
      match s.plugins.lookup snd with
      | none => (s, [])
      | some _ => Plugin.detach s
  else if j.janus = "detached" then
    match j.sender with
    | none => (s, [])
    | some snd =>
      match s.plugins.lookup snd with
      | none => (s, [])
      | some _ => Plugin.detach s
  else if j.janus = "event" then
    match j.sender with
    | none => (s, [])
    | some snd =>
      match j.plugindata with
      | none => (s, [])
      | some _ =>
        match s.plugins.lookup snd with
        | none => (s, [])
        | some _ => resolveWith s j [Ev.pluginHandleEvent snd]
  else
    (s, [])

/-- Dispatching a sequence of inbound frames through
Janus.Session.handleEvent, collecting the emitted events. -/
def handleEvents (s : SessionState) : List Frame → SessionState × List Ev
  | [] => (s, [])
  | f :: fs =>
    let r1 := handleEvent s f
    let r2 := handleEvents r1.1 fs
    (r2.1, r1.2 ++ r2.2)

/-- Janus.Session.disconnected (src lines 932-944): null the connection
and the id, run `detached()` on every plugin value (each fires a
janus:detach on the plugin and on the session, src lines 392-405),
empty the plugin map and the transaction registry, and fire
janus:disconnect carrying the prior id. -/
def disconnected (s : SessionState) : SessionState × List Ev :=
  let prior := s.id
  let detachEvs := s.plugins.flatMap fun pr => [Ev.pluginDetach pr.1, Ev.sessionDetach pr.1]
  ({ s with cxn := false, id := none, plugins := [], transactions := [] },
    detachEvs ++ [Ev.janusDisconnect prior])

/-- Which way the transport close initiated by disconnect() came back:
the destroy request's ajax call succeeded (the gateway answered with a
success frame echoing the request's transaction token) or errored. -/
inductive CloseOutcome where
  | httpOk
  | httpErr
deriving DecidableEq, Repr

/-- Janus.Session.disconnect (src lines 890-914) on the request/poll
transport, with `t` the transaction token generated for the destroy
request and `o` the ajax outcome. If no connection exists the wrapped
success runs directly (disconnected() then the user success). Otherwise
`cxn.close` sends a destroy request (Janus.Connection._httpClose, src
lines 208-214): Janus.Connection._httpSend registers the wrapped
success under `t` (src line 183); on ajax success the response frame is
dispatched through handleEvent, whose `callback` helper removes the
entry and invokes it (disconnected() then user success); on ajax error
_httpSend deletes the entry (src lines 198-199) and calls the wrapped
error (disconnected() then user error). -/
def disconnect (s : SessionState) (t : String) (o : CloseOutcome) : SessionState × List Ev :=
  if s.cxn = false then
    let r := disconnected s
    (r.1, r.2 ++ [Ev.userSuccess])
  else
    let s2 := { s with transactions := insertKey t Cb.wrappedDisconnect s.transactions }
    match o with
    | CloseOutcome.httpOk =>
      let reg := removeKey t s2.transactions
      let r := disconnected { s2 with transactions := reg }
      (r.1, Ev.invokeCb (some t) Cb.wrappedDisconnect :: (r.2 ++ [Ev.userSuccess]))
    | CloseOutcome.httpErr =>
      let reg := removeKey t s2.transactions
      let r := disconnected { s2 with transactions := reg }
      (r.1, r.2 ++ [Ev.userError])

/-- The outcome of the attach error wrapper. `pluginSession` is the
plugin's `session` reference after the wrapper ran; `uncaughtTypeError`
records whether a TypeError escaped the wrapper. -/
structure AttachErrorResult where
  pluginSession : Option Unit
  events : List Ev
  uncaughtTypeError : Bool
deriving DecidableEq, Repr

/-- `that.session.trigger("janus:error", "attach", reason)` evaluated
against the current value of `that.session`: reading `.trigger` off a
null reference throws a TypeError. -/
def sessionTriggerAttachError : Option Unit → Except Unit (List Ev)
  | none => Except.error ()
  | some _ => Except.ok [Ev.janusError "attach"]

/-- The error wrapper installed by Janus.Plugin.attach (src lines
353-357), run when the attach request fails: it first sets
`that.session = null`, then calls the caller's error callback with the
reason, then evaluates `that.session.trigger("janus:error", "attach",
reason)` on the now-null session reference. -/
def attachOnError : AttachErrorResult :=
  let sess : Option Unit := none
  let userEvs := [Ev.userError]
  match sessionTriggerAttachError sess with
  | Except.error _ =>
    { pluginSession := sess, events := userEvs, uncaughtTypeError := true }
  | Except.ok evs =>
    { pluginSession := sess, events := userEvs ++ evs, uncaughtTypeError := false }

/-- Poll-transport configuration (src lines 41-46). -/
structure PollCfg where
  maxPollRetries : Nat
deriving DecidableEq, Repr

/-- Outcome of one long-poll ajax request: success, or an error with
the transport status code (`xhr.status`, 0 meaning no response at all). -/
inductive PollOutcome where
  | ok
  | err (status : Nat)
deriving DecidableEq, Repr

/-- Events observable from the poll loop: a payload dispatched to
Janus.Session.handleEvent, a `janus:error` triggered on the session
with a category and whether the flavor was no-response (`xhr.status ===
0`), and the `session.disconnected()` cascade. -/
inductive PollEv where
  | dispatch
  | sessionError (category : String) (noResponse : Bool)
  | disconnectedCascade
deriving DecidableEq, Repr

/-- Janus.Connection._httpPoll (src lines 111-171), driven by the list
of outcomes of the successive poll requests it issues. Returns the
emitted events and the unconsumed outcomes (outcomes of requests the
loop never issued, because it stopped rescheduling itself). On success
the loop reschedules with the retry counter reset to 0 and dispatches;
on failure it increments the counter and reschedules without
dispatching while `retries < maxPollRetries`; once the counter reaches
the maximum it triggers exactly one `janus:error` with category
"connection" (message chosen by `xhr.status === 0`), calls
`session.disconnected()`, and does not reschedule. `connected` is the
connection's own flag, which nothing in the loop mutates
(session.disconnected() nulls `session.cxn` but leaves
`cxn.connected` untouched). -/
def httpPoll (cfg : PollCfg) (connected : Bool) :
    Nat → List PollOutcome → List PollEv × List PollOutcome
  | _, [] => ([], [])
  | retries, o :: os =>
    if connected = false then
      ([], o :: os)
    else
      match o with
      | PollOutcome.ok =>
        let r := httpPoll cfg connected 0 os
        (PollEv.dispatch :: r.1, r.2)
      | PollOutcome.err status =>
        let r := retries + 1
        if r < cfg.maxPollRetries then
          httpPoll cfg connected r os
        else if connected then
          ([PollEv.sessionError "connection" (status == 0),
            PollEv.disconnectedCascade], os)
        else
          ([], os)

/-! ## Registry lemmas -/

theorem removeKey_cons_self (k : String) (v : Cb) (tl : Registry) :
    removeKey k ((k, v) :: tl) = removeKey k tl := by
  simp [removeKey, List.filter_cons]

theorem removeKey_cons_ne (u k : String) (v : Cb) (tl : Registry) (h : ¬k = u) :
    removeKey u ((k, v) :: tl) = (k, v) :: removeKey u tl := by
  simp [removeKey, List.filter_cons, h]

theorem lookup_removeKey_self (t : String) (reg : Registry) :
    (removeKey t reg).lookup t = none := by
  induction reg with
  | nil => rfl
  | cons hd tl ih =>
    rcases hd with ⟨k, v⟩
    by_cases h : k = t
    · subst h
      rw [removeKey_cons_self]
      exact ih
    · rw [removeKey_cons_ne t k v tl h, List.lookup_cons]
      have hbk : (t == k) = false := beq_eq_false_iff_ne.mpr (Ne.symm h)
      rw [hbk]
      exact ih

theorem lookup_removeKey_none (u t : String) (reg : Registry)
    (h : reg.lookup t = none) : (removeKey u reg).lookup t = none := by
  induction reg with
  | nil => rfl
  | cons hd tl ih =>
    rcases hd with ⟨k, v⟩
    rw [List.lookup_cons] at h
    rcases hbeq : t == k with _ | _
    · rw [hbeq] at h
      by_cases hk : k = u
      · subst hk
        rw [removeKey_cons_self]
        exact ih h
      · rw [removeKey_cons_ne u k v tl hk, List.lookup_cons, hbeq]
        exact ih h
    · rw [hbeq] at h
      exact Option.noConfusion h

theorem callback_snd_lookup_self (reg : Registry) (t : String) :
    ((callback reg (some t)).2).lookup t = none := by
  simp only [callback]
  rcases h : reg.lookup t with _ | f
  · exact h
  · exact lookup_removeKey_self t reg

theorem callback_snd_lookup_none (reg : Registry) (u : Option String) (t : String)
    (h : reg.lookup t = none) : ((callback reg u).2).lookup t = none := by
  rcases u with _ | tok
  · exact h
  · simp only [callback]
    rcases htok : reg.lookup tok with _ | f
    · exact h
    · exact lookup_removeKey_none tok t reg h

theorem callback_fst_noop (reg : Registry) (t : String)
    (h : reg.lookup t = none) : (callback reg (some t)).1 = Cb.noop := by
  simp only [callback]
  rw [h]

/-- Does this event record a real (non-noop) resolution of token `t`? -/
def resolvesTok (t : String) (e : Ev) : Bool :=
  match e with
  | Ev.invokeCb (some u) f => u == t && !(f == Cb.noop)
  | _ => false

theorem resolvesTok_pluginHandleEvent (t snd : String) :
    resolvesTok t (Ev.pluginHandleEvent snd) = false := rfl

theorem resolvesTok_callback_fst (reg : Registry) (t : String) (u : Option String)
    (h : reg.lookup t = none) :
    resolvesTok t (Ev.invokeCb u (callback reg u).1) = false := by
  rcases u with _ | tok
  · rfl
  · by_cases htok : tok = t
    · subst htok
      rw [callback_fst_noop reg tok h]
      simp [resolvesTok]
    · simp [resolvesTok, htok]

/-! ## Shape of handleEvent -/

theorem handleEvent_shape (s : SessionState) (j : Frame) :
    handleEvent s j = (s, []) ∨
    handleEvent s j = resolveWith s j [] ∨
    ∃ snd, handleEvent s j = resolveWith s j [Ev.pluginHandleEvent snd] := by
  unfold handleEvent Plugin.detach
  split_ifs
  · exact Or.inr (Or.inl rfl)
  · exact Or.inr (Or.inl rfl)
  · exact Or.inl rfl
  · exact Or.inl rfl
  · exact Or.inl rfl
  · rcases hs : j.sender with _ | snd
    · exact Or.inl rfl
    · rcases hl : s.plugins.lookup snd with _ | p <;> simp [hs, hl]
  · rcases hs : j.sender with _ | snd
    · exact Or.inl rfl
    · rcases hl : s.plugins.lookup snd with _ | p <;> simp [hs, hl]
  · rcases hs : j.sender with _ | snd
    · exact Or.inl rfl
    · rcases hp : j.plugindata with _ | pd
      · simp [hs, hp]
      · rcases hl : s.plugins.lookup snd with _ | p
        · simp [hs, hp, hl]
        · refine Or.inr (Or.inr ⟨snd, ?_⟩)
          simp [hs, hp, hl]
  · exact Or.inl rfl

theorem handleEvent_lookup_none (s : SessionState) (j : Frame) (t : String)
    (h : s.transactions.lookup t = none) :
    ((handleEvent s j).1).transactions.lookup t = none := by
  rcases handleEvent_shape s j with hs | hs | ⟨snd, hs⟩ <;> rw [hs]
  · exact h
  · exact callback_snd_lookup_none s.transactions j.transaction t h
  · exact callback_snd_lookup_none s.transactions j.transaction t h

theorem handleEvent_countP_zero (s : SessionState) (j : Frame) (t : String)
    (h : s.transactions.lookup t = none) :
    ((handleEvent s j).2).countP (resolvesTok t) = 0 := by
  rcases handleEvent_shape s j with hs | hs | ⟨snd, hs⟩ <;> rw [hs]
  · rfl
  · simp [resolveWith, List.countP_cons,
      resolvesTok_callback_fst s.transactions t j.transaction h]
  · simp [resolveWith, List.countP_cons, resolvesTok_pluginHandleEvent,
      resolvesTok_callback_fst s.transactions t j.transaction h]

theorem handleEvent_countP_le_one (s : SessionState) (j : Frame) (t : String) :
    ((handleEvent s j).2).countP (resolvesTok t) ≤ 1 := by
  rcases handleEvent_shape s j with hs | hs | ⟨snd, hs⟩ <;> rw [hs]
  · simp
  · simp only [resolveWith, List.nil_append, List.countP_cons, List.countP_nil]
    split <;> simp
  · simp only [resolveWith, List.cons_append, List.nil_append, List.countP_cons,
      List.countP_nil, resolvesTok_pluginHandleEvent]
    split <;> simp

theorem handleEvent_resolved_lookup_none (s : SessionState) (j : Frame) (t : String)
    (h : ((handleEvent s j).2).countP (resolvesTok t) ≠ 0) :
    ((handleEvent s j).1).transactions.lookup t = none := by
  rcases handleEvent_shape s j with hs | hs | ⟨snd, hs⟩ <;> rw [hs] at h ⊢
  · simp at h
  · simp only [resolveWith] at h ⊢
    rcases hu : j.transaction with _ | tok
    · rw [hu] at h
      simp [resolvesTok] at h
    · rw [hu] at h
      by_cases htok : tok = t
      · subst htok
        exact callback_snd_lookup_self s.transactions tok
      · simp [resolvesTok, htok] at h
  · simp only [resolveWith] at h ⊢
    rcases hu : j.transaction with _ | tok
    · rw [hu] at h
      simp [resolvesTok] at h
    · rw [hu] at h
      by_cases htok : tok = t
      · subst htok
        exact callback_snd_lookup_self s.transactions tok
      · simp [resolvesTok, htok] at h

theorem handleEvents_countP_zero (t : String) :
    ∀ (fs : List Frame) (s : SessionState), s.transactions.lookup t = none →
      ((handleEvents s fs).2).countP (resolvesTok t) = 0 := by
  intro fs
  induction fs with
  | nil => intro s _; rfl
  | cons f fs ih =>
    intro s h
    show ((handleEvent s f).2 ++ (handleEvents (handleEvent s f).1 fs).2).countP
      (resolvesTok t) = 0
    rw [List.countP_append, handleEvent_countP_zero s f t h,
      ih (handleEvent s f).1 (handleEvent_lookup_none s f t h)]

theorem handleEvents_countP_le_one (t : String) :
    ∀ (fs : List Frame) (s : SessionState),
      ((handleEvents s fs).2).countP (resolvesTok t) ≤ 1 := by
  intro fs
  induction fs with
  | nil => intro s; simp [handleEvents]
  | cons f fs ih =>
    intro s
    show ((handleEvent s f).2 ++ (handleEvents (handleEvent s f).1 fs).2).countP
      (resolvesTok t) ≤ 1
    rw [List.countP_append]
    by_cases h : ((handleEvent s f).2).countP (resolvesTok t) = 0
    · rw [h]
      simpa using ih (handleEvent s f).1
    · have h1 := handleEvent_countP_le_one s f t
      have h2 := handleEvents_countP_zero t fs (handleEvent s f).1
        (handleEvent_resolved_lookup_none s f t h)
      omega

/-! ## Claim theorems -/

/-- C1: over every sequence of inbound frames dispatched through
Session.handleEvent, each transaction token is resolved (a non-noop
callback invoked) at most once; whenever a frame really resolves token
`t` the registry entry is removed (the post-state registry no longer
holds `t`); and once a token is absent, a further frame carrying it is a
no-op, never an error: no real resolution happens, and a success frame
with that token leaves the state unchanged and yields the noop callback. -/
theorem C1_token_resolved_at_most_once (s : SessionState) (fs : List Frame) (t : String) :
    ((handleEvents s fs).2).countP (resolvesTok t) ≤ 1
    ∧ (∀ j, ((handleEvent s j).2).countP (resolvesTok t) ≠ 0 →
        ((handleEvent s j).1).transactions.lookup t = none)
    ∧ (s.transactions.lookup t = none → ∀ j,
        ((handleEvent s j).2).countP (resolvesTok t) = 0
        ∧ (j.janus = "success" → j.transaction = some t →
            handleEvent s j = (s, [Ev.invokeCb (some t) Cb.noop]))) := by
  refine ⟨handleEvents_countP_le_one t fs s,
    fun j => handleEvent_resolved_lookup_none s j t,
    fun h j => ⟨handleEvent_countP_zero s j t h, fun hj ht => ?_⟩⟩
  have hcb : callback s.transactions (some t) = (Cb.noop, s.transactions) := by
    simp only [callback]
    rw [h]
  simp [handleEvent, hj, resolveWith, ht, hcb]

/-- Session used to evaluate C1 on concrete inputs. -/
def c1Session : SessionState :=
  { id := some "1", cxn := true, transactions := [("T", Cb.user 0)], plugins := [] }

/-- Success frame resolving token "T". -/
def c1Frame : Frame := { janus := "success", transaction := some "T" }

theorem C1_token_resolved_at_most_once_witness :
    ((handleEvents c1Session [c1Frame, c1Frame]).2).countP (resolvesTok "T") ≤ 1
    ∧ handleEvent { c1Session with transactions := [] } c1Frame
        = ({ c1Session with transactions := [] }, [Ev.invokeCb (some "T") Cb.noop]) :=
  ⟨(C1_token_resolved_at_most_once c1Session [c1Frame, c1Frame] "T").1,
    ((C1_token_resolved_at_most_once { c1Session with transactions := [] } [] "T").2.2
      rfl c1Frame).2 rfl rfl⟩

/-- Plugin attached under gateway-assigned id "7". -/
def c2Plugin : PluginState := { id := some "7" }

/-- Session with c2Plugin registered under key "7". -/
def c2Session : SessionState :=
  { id := some "1", cxn := true, transactions := [], plugins := [("7", c2Plugin)] }

/-- C2 (code bug): when the session receives a hangup (or detached)
frame for sender "7", Janus.Plugin.detach is called on the registered
plugin, but detach never sends the request it builds and never runs
`detached()`, so the session state is unchanged — the plugin is still in
the plugin map — and no janus:detach notification fires, contradicting
the claim that the handle is removed and a detach notification fires
exactly once. -/
theorem C2_hangup_leaves_plugin_attached :
    handleEvent c2Session { janus := "hangup", sender := some "7" } = (c2Session, [])
    ∧ handleEvent c2Session { janus := "detached", sender := some "7" } = (c2Session, [])
    ∧ c2Session.plugins.lookup "7" = some c2Plugin
    ∧ ((handleEvent c2Session { janus := "hangup", sender := some "7" }).1).plugins.lookup "7"
        = some c2Plugin :=
  ⟨rfl, rfl, rfl, rfl⟩

/-- C3: whichever way disconnect() completes — never connected, destroy
request succeeded, or destroy request failed — the final session state
has an empty plugin map, an empty transaction registry and a null id. -/
theorem C3_disconnect_clears_state (s : SessionState) (t : String) (o : CloseOutcome) :
    ((disconnect s t o).1).plugins = []
    ∧ ((disconnect s t o).1).transactions = []
    ∧ ((disconnect s t o).1).id = none := by
  unfold disconnect
  split_ifs
  · simp [disconnected]
  · cases o <;> simp [disconnected]

/-- C4: with maxPollRetries = 3 and nothing but poll failures (the retry
counter never resets), the poll loop emits exactly one janus:error of
category "connection" (whose flavor distinguishes `xhr.status === 0`
from a server rejection) and exactly one session.disconnected() cascade,
and stops rescheduling itself: the remaining poll outcomes are never
consumed. Fewer than three failures emit nothing. -/
theorem C4_poll_failures_single_disconnect (status : Nat) (n : Nat) :
    (3 ≤ n →
      httpPoll { maxPollRetries := 3 } true 0 (List.replicate n (PollOutcome.err status))
        = ([PollEv.sessionError "connection" (status == 0), PollEv.disconnectedCascade],
            List.replicate (n - 3) (PollOutcome.err status)))
    ∧ (n < 3 →
      httpPoll { maxPollRetries := 3 } true 0 (List.replicate n (PollOutcome.err status))
        = ([], [])) := by
  constructor
  · intro h
    obtain ⟨k, rfl⟩ : ∃ k, n = 3 + k := ⟨n - 3, by omega⟩
    have hrep : List.replicate (3 + k) (PollOutcome.err status)
        = PollOutcome.err status :: PollOutcome.err status :: PollOutcome.err status
            :: List.replicate k (PollOutcome.err status) := by
      rw [Nat.add_comm]
      rfl
    rw [hrep]
    have hsub : 3 + k - 3 = k := by omega
    rw [hsub]
    simp [httpPoll]
  · intro h
    rcases n with _ | _ | _ | n
    · rfl
    · rfl
    · rfl
    · omega

theorem C4_poll_failures_single_disconnect_witness :
    httpPoll { maxPollRetries := 3 } true 0 (List.replicate 5 (PollOutcome.err 0))
      = ([PollEv.sessionError "connection" true, PollEv.disconnectedCascade],
          List.replicate 2 (PollOutcome.err 0))
    ∧ httpPoll { maxPollRetries := 3 } true 0 (List.replicate 4 (PollOutcome.err 404))
      = ([PollEv.sessionError "connection" false, PollEv.disconnectedCascade],
          List.replicate 1 (PollOutcome.err 404)) := by
  constructor
  · have h := (C4_poll_failures_single_disconnect 0 5).1 (by decide)
    simpa using h
  · have h := (C4_poll_failures_single_disconnect 404 4).1 (by decide)
    simpa using h

/-- C5: each of the four media-direction predicates returns true on an
absent media record; false whenever the parent kind flag is explicitly
false, regardless of the per-direction flag; true when the parent kind
flag is not explicitly false and the per-direction flag is absent
(undefined or null); and otherwise true exactly when the per-direction
flag is the boolean true. -/
theorem C5_media_direction_predicates (m : Media) :
    (isAudioSendEnabled none = true ∧ isAudioRecvEnabled none = true
      ∧ isVideoSendEnabled none = true ∧ isVideoRecvEnabled none = true)
    ∧ (m.audio = JVal.jbool false →
        isAudioSendEnabled (some m) = false ∧ isAudioRecvEnabled (some m) = false)
    ∧ (m.video = JVal.jbool false →
        isVideoSendEnabled (some m) = false ∧ isVideoRecvEnabled (some m) = false)
    ∧ (m.audio ≠ JVal.jbool false →
        ((m.audioSend = JVal.undef ∨ m.audioSend = JVal.null) →
            isAudioSendEnabled (some m) = true)
        ∧ ((m.audioRecv = JVal.undef ∨ m.audioRecv = JVal.null) →
            isAudioRecvEnabled (some m) = true)
        ∧ (m.audioSend ≠ JVal.undef → m.audioSend ≠ JVal.null →
            (isAudioSendEnabled (some m) = true ↔ m.audioSend = JVal.jbool true))
        ∧ (m.audioRecv ≠ JVal.undef → m.audioRecv ≠ JVal.null →
            (isAudioRecvEnabled (some m) = true ↔ m.audioRecv = JVal.jbool true)))
    ∧ (m.video ≠ JVal.jbool false →
        ((m.videoSend = JVal.undef ∨ m.videoSend = JVal.null) →
            isVideoSendEnabled (some m) = true)
        ∧ ((m.videoRecv = JVal.undef ∨ m.videoRecv = JVal.null) →
            isVideoRecvEnabled (some m) = true)
        ∧ (m.videoSend ≠ JVal.undef → m.videoSend ≠ JVal.null →
            (isVideoSendEnabled (some m) = true ↔ m.videoSend = JVal.jbool true))
        ∧ (m.videoRecv ≠ JVal.undef → m.videoRecv ≠ JVal.null →
            (isVideoRecvEnabled (some m) = true ↔ m.videoRecv = JVal.jbool true))) := by
  refine ⟨⟨rfl, rfl, rfl, rfl⟩, ?_, ?_, ?_, ?_⟩
  · intro h
    exact ⟨by simp [isAudioSendEnabled, h], by simp [isAudioRecvEnabled, h]⟩
  · intro h
    exact ⟨by simp [isVideoSendEnabled, h], by simp [isVideoRecvEnabled, h]⟩
  · intro h
    refine ⟨fun habs => ?_, fun habs => ?_, fun h1 h2 => ?_, fun h1 h2 => ?_⟩
    · simp [isAudioSendEnabled, h, habs]
    · simp [isAudioRecvEnabled, h, habs]
    · simp [isAudioSendEnabled, h, h1, h2]
    · simp [isAudioRecvEnabled, h, h1, h2]
  · intro h
    refine ⟨fun habs => ?_, fun habs => ?_, fun h1 h2 => ?_, fun h1 h2 => ?_⟩
    · simp [isVideoSendEnabled, h, habs]
    · simp [isVideoRecvEnabled, h, habs]
    · simp [isVideoSendEnabled, h, h1, h2]
    · simp [isVideoRecvEnabled, h, h1, h2]

theorem C5_media_direction_predicates_witness :
    isAudioSendEnabled (some { audio := JVal.jbool false, audioSend := JVal.jbool true }) = false
    ∧ isVideoRecvEnabled (some ({} : Media)) = true
    ∧ isVideoSendEnabled (some { videoSend := JVal.jbool true }) = true := by
  refine ⟨?_, ?_, ?_⟩
  · exact ((C5_media_direction_predicates
      { audio := JVal.jbool false, audioSend := JVal.jbool true }).2.1 rfl).1
  · exact (((C5_media_direction_predicates ({} : Media)).2.2.2.2
      (by decide)).2.1 (Or.inl rfl))
  · exact ((((C5_media_direction_predicates
      { videoSend := JVal.jbool true }).2.2.2.2 (by decide)).2.2.1
      (by decide) (by decide)).mpr rfl)

/-- C6: a createOffer or createAnswer continuation run while a local
description is already stored leaves the plugin state (and hence the
stored description) unchanged, and a sendMessage issued afterwards with
no explicit jsep, while sdpSent is still false, attaches that first
description unmodified to the outgoing message request. -/
theorem C6_local_description_not_overwritten (p : PluginState) (d o a : Sdp) (b : String)
    (h : p.sdp = some d) :
    (createOffer p o).1 = p
    ∧ (createAnswer p a).1 = p
    ∧ (p.sdpSent = false →
        (sendMessage (createOffer p o).1 b none).jsep = some d
        ∧ (sendMessage (createAnswer p a).1 b none).jsep = some d) := by
  have hne : ¬p.sdp = none := by simp [h]
  refine ⟨by simp [createOffer, hne], by simp [createAnswer, hne], fun hs => ?_⟩
  constructor <;> simp [createOffer, createAnswer, hne, sendMessage, h, hs]

/-- Plugin that already holds a local description. -/
def c6Plugin : PluginState := { sdp := some { type := "offer", sdp := "v=0 first" } }

theorem C6_local_description_not_overwritten_witness :
    (sendMessage (createOffer c6Plugin { type := "offer", sdp := "v=0 second" }).1
        "join" none).jsep = some { type := "offer", sdp := "v=0 first" } :=
  ((C6_local_description_not_overwritten c6Plugin { type := "offer", sdp := "v=0 first" }
      { type := "offer", sdp := "v=0 second" } { type := "offer", sdp := "v=0 second" }
      "join" rfl).2.2 rfl).1

/-- C7 (amended): each locally discovered ICE candidate is forwarded as
a single trickle request regardless of the iceTrickle flag (the handler
has no trickle check on the candidate path); on gathering completion the
iceDone flag is set, and completion is signaled as a final trickle
request with the completed marker when iceTrickle is enabled, or as a
local webrtc:icecomplete notification with no trickle message when it is
disabled. -/
theorem C7_ice_candidate_forwarding (p : PluginState) (c : ICand) :
    onicecandidate p (IceGatherEvent.candidate c)
      = (p, [Ev.trickleSend { janus := "trickle", candidate := TrickleCandidate.cand c },
              Ev.webrtcIceCandidate])
    ∧ onicecandidate p IceGatherEvent.complete
      = ({ p with iceDone := true },
          if p.iceTrickle then
            [Ev.trickleSend { janus := "trickle", candidate := TrickleCandidate.completed }]
          else [Ev.webrtcIceComplete]) := by
  constructor
  · rfl
  · by_cases h : p.iceTrickle <;> simp [onicecandidate, sendIceCandidate, h]

/-- Plugin with trickling disabled. -/
def c7Plugin : PluginState := { iceTrickle := false }

/-- A concrete discovered candidate. -/
def c7Cand : ICand :=
  { candidate := "candidate:1 1 udp 2122260223 192.0.2.1 54400 typ host"
    sdpMid := "0"
    sdpMLineIndex := 0 }

/-- C7 counterexample to the claim as stated: with iceTrickle disabled,
a discovered candidate is still forwarded to the remote party as a
trickle request, so candidates are not forwarded "only while the
trickle-mode flag is enabled". -/
theorem C7_candidate_sent_while_trickle_disabled :
    c7Plugin.iceTrickle = false
    ∧ (onicecandidate c7Plugin (IceGatherEvent.candidate c7Cand)).2
        = [Ev.trickleSend { janus := "trickle", candidate := TrickleCandidate.cand c7Cand },
            Ev.webrtcIceCandidate] :=
  ⟨rfl, rfl⟩

/-- C8 (code bug): when an attach request fails, the error wrapper first
nulls the plugin's session reference and calls the user's error callback
(so the handle is left unattached and the failure is propagated), but
the subsequent `that.session.trigger("janus:error", "attach", reason)`
dereferences the now-null session: a TypeError escapes uncaught and no
attach-category janus:error notification is ever emitted, contradicting
the claim. -/
theorem C8_attach_error_uncaught_typeerror :
    attachOnError.uncaughtTypeError = true
    ∧ attachOnError.events = [Ev.userError]
    ∧ Ev.janusError "attach" ∉ attachOnError.events
    ∧ attachOnError.pluginSession = none := by
  refine ⟨rfl, rfl, ?_, rfl⟩
  simp [attachOnError, sessionTriggerAttachError]

/-- C9: isDataEnabled returns true when media is absent; on a present
media record it returns true exactly when the data flag is the boolean
true — so an absent data flag leaves data disabled, unlike the four
direction predicates — and the Plugin's default media record explicitly
sets data to false, so data is disabled by default. -/
theorem C9_isDataEnabled_default_off (m : Media) :
    isDataEnabled none = true
    ∧ (isDataEnabled (some m) = true ↔ m.data = JVal.jbool true)
    ∧ (m.data = JVal.undef → isDataEnabled (some m) = false)
    ∧ defaultMedia.data = JVal.jbool false
    ∧ isDataEnabled (some defaultMedia) = false := by
  refine ⟨rfl, by simp [isDataEnabled], fun h => by simp [isDataEnabled, h], rfl, rfl⟩

theorem C9_isDataEnabled_default_off_witness :
    isDataEnabled (some ({} : Media)) = false ∧ isDataEnabled none = true :=
  ⟨(C9_isDataEnabled_default_off ({} : Media)).2.2.1 rfl,
    (C9_isDataEnabled_default_off ({} : Media)).1⟩

/-- C10: calling disconnect() on a session with no connection still runs
the full disconnect-cleanup before the caller's success callback: the
resulting state has empty plugin map and registry and a null id, each
plugin fires its detach notifications, a janus:disconnect event carrying
the prior id is emitted, and the user success callback runs last. -/
theorem C10_disconnect_without_connection (s : SessionState) (t : String) (o : CloseOutcome)
    (h : s.cxn = false) :
    disconnect s t o
      = ({ id := none, cxn := false, transactions := [], plugins := [] },
          (s.plugins.flatMap fun pr => [Ev.pluginDetach pr.1, Ev.sessionDetach pr.1])
            ++ [Ev.janusDisconnect s.id, Ev.userSuccess]) := by
  unfold disconnect
  rw [if_pos h]
  simp [disconnected]

theorem C10_disconnect_without_connection_witness :
    disconnect ({} : SessionState) "T" CloseOutcome.httpOk
      = ({ id := none, cxn := false, transactions := [], plugins := [] },
          [Ev.janusDisconnect none, Ev.userSuccess]) := by
  have h := C10_disconnect_without_connection ({} : SessionState) "T" CloseOutcome.httpOk rfl
  simpa using h

end JanusJS
